import Mathlib

/-!
Verification of the note-taking repository: a shallow embedding of
`note_manager.py` (the note store) and `pdf_generator.py` (the markdown
cleaner and the PDF document assembler), together with theorems settling
the frozen claims about them.

Conventions of the embedding:
* A note dict becomes the structure `Note`; all fields are strings, as in
  the JSON file (`created_at`/`updated_at` are ISO-8601 strings, compared
  lexicographically exactly as Python compares `str`).
* The backing JSON file becomes `Disk`: `content = none` models a missing
  or non-parseable file (`open` raising `FileNotFoundError` or `json.load`
  raising `JSONDecodeError`), `content = some notes` a readable file.
  `writeOk` models whether an attempted write succeeds; a failed write
  leaves the file as it was and `save_notes` returns `False`.
* `uuid.uuid4()` and `datetime.now().isoformat()` are nondeterministic
  inputs of the Python code; they become explicit parameters (`id`,
  `time`, `now`) of the corresponding Lean functions.
* Every store operation is `Disk → result × Disk`, mirroring that each
  Python method reloads from disk and (on mutation) writes back wholesale.
-/

namespace NoteApp

/-- A note record, as stored in the per-user JSON array
(`note_manager.py`, `create_note`). -/
structure Note where
  id : String
  title : String
  content : String
  created_at : String
  updated_at : String
deriving Repr, DecidableEq

/-- The backing storage for one user: the JSON file (`none` = missing or
non-parseable) and whether a write to it would succeed. -/
structure Disk where
  content : Option (List Note)
  writeOk : Bool
deriving Repr, DecidableEq

/-- `NoteManager.load_notes`: parse the JSON file, returning `[]` on
`FileNotFoundError` or `JSONDecodeError`. -/
def load_notes (d : Disk) : List Note :=
  d.content.getD []

/-- `NoteManager.save_notes`: overwrite the whole file with the given list,
returning `True` on success and `False` (file untouched) on failure. -/
def save_notes (notes : List Note) (d : Disk) : Bool × Disk :=
  if d.writeOk then (true, { content := some notes, writeOk := d.writeOk })
  else (false, d)

/-- `NoteManager.create_note`: load, append a fresh note with both
timestamps set to `time`, save; return the new id on success, `None` if
the save fails. -/
def create_note (title content id time : String) (d : Disk) :
    Option String × Disk :=
  let notes := load_notes d
  let new_note : Note :=
    { id := id
      title := title
      content := content
      created_at := time
      updated_at := time }
  let r := save_notes (notes ++ [new_note]) d
  if r.1 then (some id, r.2) else (none, r.2)

/-- `NoteManager.get_note`: first note of the loaded list whose `id`
matches, else `None`. -/
def get_note (note_id : String) (d : Disk) : Option Note :=
  (load_notes d).find? (fun n => n.id == note_id)

/-- `NoteManager.get_all_notes`: the loaded list sorted by `created_at`,
newest first.  Python's `sorted(notes, key=..., reverse=True)` is a stable
sort whose output is non-increasing in the key; `List.mergeSort` with the
reversed comparison is exactly that. -/
def get_all_notes (d : Disk) : List Note :=
  (load_notes d).mergeSort (fun a b => decide (b.created_at ≤ a.created_at))

/-- First-match in-place update of the loop in `NoteManager.update_note`:
rewrite title/content/`updated_at` of the first note with the given id;
`none` when no note matches. -/
def updateFirst (note_id title content now : String) :
    List Note → Option (List Note)
  | [] => none
  | n :: ns =>
    if n.id == note_id then
      some ({ n with
              title := title
              content := content
              updated_at := now } :: ns)
    else
      match updateFirst note_id title content now ns with
      | some ns' => some (n :: ns')
      | none => none

/-- `NoteManager.update_note`: load; on the first note whose id matches,
replace title/content, stamp `updated_at := now` and save (returning the
save result); `False` when no note matches. -/
def update_note (note_id title content now : String) (d : Disk) :
    Bool × Disk :=
  match updateFirst note_id title content now (load_notes d) with
  | some notes' => save_notes notes' d
  | none => (false, d)

/-- `NoteManager.delete_note`: load, drop every note with the given id;
save when the list shrank, else report not-found. -/
def delete_note (note_id : String) (d : Disk) : Bool × Disk :=
  let notes := load_notes d
  let notes' := notes.filter (fun n => n.id != note_id)
  if notes'.length < notes.length then save_notes notes' d
  else (false, d)

/-- Python `str.lower()` (character-wise lowering, as for the ASCII data
the app handles). -/
def strLower (s : String) : String :=
  String.mk (s.toList.map Char.toLower)

/-- Python's substring test `needle in hay`. -/
def pyContains (hay needle : String) : Bool :=
  decide (needle.toList <:+: hay.toList)

/-- The match test of the loop in `NoteManager.search_notes` (the query is
already lowercased by the caller). -/
def noteMatches (q : String) (n : Note) : Bool :=
  pyContains (strLower n.title) q || pyContains (strLower n.content) q

/-- `NoteManager.search_notes`: over the full listing, collect the notes
whose lowercased title or content contains the lowercased query. -/
def search_notes (query : String) (d : Disk) : List Note :=
  let q := strLower query
  (get_all_notes d).foldl
    (fun acc n => if noteMatches q n then acc ++ [n] else acc) []

/-- `NoteManager.get_notes_count`: length of the loaded list. -/
def get_notes_count (d : Disk) : Nat :=
  (load_notes d).length

/-! ## The markdown cleaner of `pdf_generator.py`

`PDFGenerator.clean_content` is a cascade of `re.sub` passes.  Each pass is
embedded as a function on `List Char` (or per-line on `String` for the
`re.MULTILINE`-anchored patterns), reproducing Python's leftmost-match,
non-greedy semantics: scan left to right; at a position where the pattern
can match, replace the (shortest) match and continue after it; otherwise
emit one character and move on.  Scanners that jump past a match take a
fuel argument (called with fuel = length of the input, which every step
strictly consumes) so that they are structurally recursive and
kernel-evaluable. -/

/-- The backtick character. -/
def bq : Char := Char.ofNat 96

/-- Shortest split `l = g ++ [c] ++ r` with `g` newline-free: the
non-greedy `(.*?)` before a one-character closing delimiter `c`. -/
def splitClose1 (c : Char) : List Char → Option (List Char × List Char)
  | [] => none
  | a :: rest =>
    if a = c then some ([], rest)
    else if a = '\n' then none
    else
      match splitClose1 c rest with
      | some (g, r) => some (a :: g, r)
      | none => none

/-- Shortest split `l = g ++ [c, c] ++ r` with `g` newline-free: the
non-greedy `(.*?)` before a doubled closing delimiter (`**`, `~~`). -/
def splitClose2 (c : Char) : List Char → Option (List Char × List Char)
  | [] => none
  | [_] => none
  | a :: b :: rest =>
    if a = c ∧ b = c then some ([], rest)
    else if a = '\n' then none
    else
      match splitClose2 c (b :: rest) with
      | some (g, r) => some (a :: g, r)
      | none => none

/-- Split at the first backtick: the maximal-munch `[^`]+` of the
inline-code pattern necessarily ends at the next backtick (newlines are
allowed inside). -/
def splitCloseCode : List Char → Option (List Char × List Char)
  | [] => none
  | a :: rest =>
    if a = bq then some ([], rest)
    else
      match splitCloseCode rest with
      | some (g, r) => some (a :: g, r)
      | none => none

/-- Shortest split `l = g ++ "..." ++ r` at a triple backtick: the
non-greedy `[\s\S]*?` before the closing fence (any characters inside). -/
def splitCloseFence : List Char → Option (List Char × List Char)
  | [] => none
  | a :: rest =>
    if a = bq ∧ rest.take 2 = [bq, bq] then some ([], rest.drop 2)
    else
      match splitCloseFence rest with
      | some (g, r) => some (a :: g, r)
      | none => none

/-- `\*\*(.*?)\*\*`-style pass (`c = '*'`: bold; `c = '~'`: strikethrough):
wrap the shortest doubled-delimiter span in `openT`/`closeT`. -/
def subPair2F (c : Char) (openT closeT : List Char) :
    Nat → List Char → List Char
  | 0, s => s
  | _ + 1, [] => []
  | _ + 1, [a] => [a]
  | fuel + 1, a :: b :: rest =>
    if a = c ∧ b = c then
      match splitClose2 c rest with
      | some (g, r) => openT ++ g ++ closeT ++ subPair2F c openT closeT fuel r
      | none => a :: subPair2F c openT closeT fuel (b :: rest)
    else a :: subPair2F c openT closeT fuel (b :: rest)

/-- `\*(.*?)\*`-style pass (italic): wrap the shortest single-delimiter
span in `openT`/`closeT`. -/
def subPair1F (c : Char) (openT closeT : List Char) :
    Nat → List Char → List Char
  | 0, s => s
  | _ + 1, [] => []
  | fuel + 1, a :: rest =>
    if a = c then
      match splitClose1 c rest with
      | some (g, r) => openT ++ g ++ closeT ++ subPair1F c openT closeT fuel r
      | none => a :: subPair1F c openT closeT fuel rest
    else a :: subPair1F c openT closeT fuel rest

/-- The inline-code pass: backtick, one or more non-backticks, backtick,
becomes a Courier font span. -/
def subInlineCodeF : Nat → List Char → List Char
  | 0, s => s
  | _ + 1, [] => []
  | fuel + 1, a :: rest =>
    if a = bq then
      match splitCloseCode rest with
      | some (g, r) =>
        if g.isEmpty then a :: subInlineCodeF fuel rest
        else
          "<font face=\"Courier\">".toList ++ g ++ "</font>".toList ++
            subInlineCodeF fuel r
      | none => a :: subInlineCodeF fuel rest
    else a :: subInlineCodeF fuel rest

/-- Python `str.strip()` on a character list. -/
def stripChars (l : List Char) : List Char :=
  ((l.dropWhile Char.isWhitespace).reverse.dropWhile Char.isWhitespace).reverse

/-- Python `str.replace("```", "")`: drop triple backticks left to right,
non-overlapping. -/
def removeFencesF : Nat → List Char → List Char
  | 0, s => s
  | _ + 1, [] => []
  | fuel + 1, a :: rest =>
    if a = bq ∧ rest.take 2 = [bq, bq] then removeFencesF fuel (rest.drop 2)
    else a :: removeFencesF fuel rest

/-- Wrapper for `removeFencesF` with enough fuel. -/
def removeFences (l : List Char) : List Char :=
  removeFencesF l.length l

/-- `PDFGenerator.clean_content.replace_code_block`: strip the fences from
the matched text, trim, truncate to 100 characters plus `"..."` when
longer, and wrap in a Courier size-9 font span. -/
def replaceCodeBlock (matched : List Char) : List Char :=
  let code := stripChars (removeFences matched)
  let code := if code.length > 100 then code.take 100 ++ "...".toList else code
  "<font face=\"Courier\" size=\"9\">".toList ++ code ++ "</font>".toList

/-- The fenced-code-block pass: the shortest triple-backtick-delimited
span is handed (fences included, as `group(0)`) to `replaceCodeBlock`. -/
def subCodeBlocksF : Nat → List Char → List Char
  | 0, s => s
  | _ + 1, [] => []
  | fuel + 1, a :: rest =>
    if a = bq ∧ rest.take 2 = [bq, bq] then
      match splitCloseFence (rest.drop 2) with
      | some (g, r) =>
        replaceCodeBlock ([bq, bq, bq] ++ g ++ [bq, bq, bq]) ++
          subCodeBlocksF fuel r
      | none => a :: subCodeBlocksF fuel rest
    else a :: subCodeBlocksF fuel rest

/-- Lookahead `(?=\n\n|\n[^|]|\Z)` of the table pattern. -/
def lookaheadTable : List Char → Bool
  | [] => true
  | '\n' :: '\n' :: _ => true
  | '\n' :: c :: _ => c ≠ '|'
  | _ => false

/-- Shortest split `l = g ++ r` such that the table lookahead holds at
`r`: the non-greedy `[\s\S]*?` before the lookahead (always succeeds,
since the lookahead holds at the end of input). -/
def splitAtLookahead : List Char → List Char × List Char
  | [] => ([], [])
  | a :: rest =>
    if lookaheadTable (a :: rest) then ([], a :: rest)
    else
      let p := splitAtLookahead rest
      (a :: p.1, p.2)

/-- Python `str.split(c)` for a one-character separator. -/
def splitOnChar (c : Char) : List Char → List (List Char)
  | [] => [[]]
  | a :: rest =>
    match splitOnChar c rest with
    | [] => [[a]]
    | g :: gs => if a = c then [] :: g :: gs else (a :: g) :: gs

/-- Python `sep.join(...)` on character lists. -/
def joinWith (sep : List Char) : List (List Char) → List Char
  | [] => []
  | [g] => g
  | g :: gs => g ++ sep ++ joinWith sep gs

/-- One line of `PDFGenerator.clean_content.replace_table`: a line
containing `|` and not starting (after strip) with `|--` contributes its
nonempty trimmed cells joined by `" • "`. -/
def replaceTableLine (line : List Char) : Option (List Char) :=
  if line.contains '|' ∧ ¬ ("|--".toList.isPrefixOf (stripChars line)) then
    let cells := ((splitOnChar '|' line).map stripChars).filter
      (fun c => !c.isEmpty)
    if cells.isEmpty then none else some (joinWith " • ".toList cells)
  else none

/-- `PDFGenerator.clean_content.replace_table` on the matched text. -/
def replaceTable (matched : List Char) : List Char :=
  joinWith "<br/>".toList
    ((splitOnChar '\n' matched).filterMap replaceTableLine)

/-- The table pass `\|.*?\|[\s\S]*?(?=\n\n|\n[^|]|\Z)`: a pipe, the
shortest newline-free span up to a second pipe, then the shortest span up
to the lookahead; the match is rewritten by `replaceTable`. -/
def subTablesF : Nat → List Char → List Char
  | 0, s => s
  | _ + 1, [] => []
  | fuel + 1, a :: rest =>
    if a = '|' then
      match splitClose1 '|' rest with
      | some (g1, r1) =>
        let p := splitAtLookahead r1
        replaceTable ('|' :: g1 ++ '|' :: p.1) ++ subTablesF fuel p.2
      | none => a :: subTablesF fuel rest
    else a :: subTablesF fuel rest

/-- After a `[`, find the full link match `\[(.*?)\]\(.*?\)`: the group
before `]` grows (non-greedy with backtracking, newline-free) until a
`](`, a newline-free span and a `)` complete the match; returns the link
text and the remainder after the closing parenthesis. -/
def splitLink : List Char → Option (List Char × List Char)
  | [] => none
  | a :: rest =>
    let completed : Option (List Char × List Char) :=
      if a = ']' then
        match rest with
        | '(' :: r2 =>
          match splitClose1 ')' r2 with
          | some (_, r3) => some ([], r3)
          | none => none
        | _ => none
      else none
    match completed with
    | some v => some v
    | none =>
      if a = '\n' then none
      else
        match splitLink rest with
        | some (g, r) => some (a :: g, r)
        | none => none

/-- The link pass: `[text](url)` is replaced by just `text`. -/
def subLinksF : Nat → List Char → List Char
  | 0, s => s
  | _ + 1, [] => []
  | fuel + 1, a :: rest =>
    if a = '[' then
      match splitLink rest with
      | some (g, r) => g ++ subLinksF fuel r
      | none => a :: subLinksF fuel rest
    else a :: subLinksF fuel rest

/-- Python `str.replace("\n\n", "<br/><br/>")`. -/
def replaceDoubleNewline : List Char → List Char
  | '\n' :: '\n' :: rest => "<br/><br/>".toList ++ replaceDoubleNewline rest
  | a :: rest => a :: replaceDoubleNewline rest
  | [] => []

/-- Python `str.replace("\n", "<br/>")`. -/
def replaceNewline : List Char → List Char
  | '\n' :: rest => "<br/>".toList ++ replaceNewline rest
  | a :: rest => a :: replaceNewline rest
  | [] => []

/-- Apply a per-line rewrite to every line: the shape of a
`re.sub(..., flags=re.MULTILINE)` whose pattern is anchored with `^` and
cannot cross a newline. -/
def applyLines (f : List Char → List Char) (s : List Char) : List Char :=
  joinWith ['\n'] ((splitOnChar '\n' s).map f)

/-- `^### (.*?)$` → `<b><font size="12">\1</font></b>`. -/
def subH3Line (line : List Char) : List Char :=
  if "### ".toList.isPrefixOf line then
    "<b><font size=\"12\">".toList ++ line.drop 4 ++ "</font></b>".toList
  else line

/-- `^## (.*?)$` → `<b><font size="14">\1</font></b>`. -/
def subH2Line (line : List Char) : List Char :=
  if "## ".toList.isPrefixOf line then
    "<b><font size=\"14\">".toList ++ line.drop 3 ++ "</font></b>".toList
  else line

/-- `^# (.*?)$` → `<b><font size="16">\1</font></b>`. -/
def subH1Line (line : List Char) : List Char :=
  if "# ".toList.isPrefixOf line then
    "<b><font size=\"16\">".toList ++ line.drop 2 ++ "</font></b>".toList
  else line

/-- `^\• ` → `• ` (a textual no-op, kept for fidelity). -/
def bulletDotLine (line : List Char) : List Char :=
  if "• ".toList.isPrefixOf line then "• ".toList ++ line.drop 2 else line

/-- `^- ` → `• `. -/
def bulletDashLine (line : List Char) : List Char :=
  if "- ".toList.isPrefixOf line then "• ".toList ++ line.drop 2 else line

/-- `^\d+\. ` → `• `. -/
def bulletNumLine (line : List Char) : List Char :=
  let digits := line.takeWhile Char.isDigit
  let rest := line.dropWhile Char.isDigit
  if 0 < digits.length ∧ rest.take 2 = ['.', ' '] then
    '•' :: ' ' :: rest.drop 2
  else line

/-- `^> (.*?)$` → `<i>"  \1  "</i>`. -/
def quoteLine (line : List Char) : List Char :=
  if "> ".toList.isPrefixOf line then
    "<i>\"  ".toList ++ line.drop 2 ++ "  \"</i>".toList
  else line

/-- `^- \[x\] (.*?)$` → `✓ \1`. -/
def checkedLine (line : List Char) : List Char :=
  if "- [x] ".toList.isPrefixOf line then "✓ ".toList ++ line.drop 6
  else line

/-- `^- \[ \] (.*?)$` → `☐ \1`. -/
def uncheckedLine (line : List Char) : List Char :=
  if "- [ ] ".toList.isPrefixOf line then "☐ ".toList ++ line.drop 6
  else line

/-- `^---+$` → 50 underscores. -/
def hrLine (line : List Char) : List Char :=
  if 3 ≤ line.length ∧ line.all (fun c => c = '-') then
    List.replicate 50 '_'
  else line

/-- `PDFGenerator.clean_content`: the full substitution cascade, in source
order (headings, bold, italic, strikethrough, inline code, list markers,
quotes, fenced code blocks, tables, checklists, horizontal rules, links,
line breaks). -/
def clean_content (content : String) : String :=
  let c := content.toList
  let c := applyLines subH3Line c
  let c := applyLines subH2Line c
  let c := applyLines subH1Line c
  let c := subPair2F '*' "<b>".toList "</b>".toList c.length c
  let c := subPair1F '*' "<i>".toList "</i>".toList c.length c
  let c := subPair2F '~' "<strike>".toList "</strike>".toList c.length c
  let c := subInlineCodeF c.length c
  let c := applyLines bulletDotLine c
  let c := applyLines bulletDashLine c
  let c := applyLines bulletNumLine c
  let c := applyLines quoteLine c
  let c := subCodeBlocksF c.length c
  let c := subTablesF c.length c
  let c := applyLines checkedLine c
  let c := applyLines uncheckedLine c
  let c := applyLines hrLine c
  let c := subLinksF c.length c
  let c := replaceDoubleNewline c
  let c := replaceNewline c
  String.mk c

/-! ## The document assembler of `pdf_generator.py`

The `story` handed to reportlab's `SimpleDocTemplate.build` becomes a list
of `Flowable`s (paragraph text plus the style name, spacers, page breaks).
External calls that can raise are abstracted in `PdfEnv`:

* reportlab's `Paragraph(text, style)` parses its markup eagerly and can
  raise (e.g. `ValueError` on invalid tags in the text);
  `paraError text style = some e` models that raise, `none` a successful
  construction of the flowable;
* `datetime.fromisoformat(ts).strftime(...)` can raise on a non-parseable
  stored timestamp: `fmtLong` is the `"%B %d, %Y at %I:%M %p"` form and
  `fmtShort` the `"%m/%d/%Y"` form used by the table of contents;
* `doc.build(story)` may also raise; it is the only call the source wraps
  in `try`, so it stays a separate parameter
  `build : List Flowable → Option (List Nat)` (`none` = the backend
  threw, `some bytes` = the produced byte buffer).

Story construction therefore runs in `Except String`: an `.error` is an
exception propagating uncaught past the assembler (in the source only
`doc.build` sits inside `try` — `pdf_generator.py` lines 176-184, 270-278
and 293-299 — while the `Paragraph` and `fromisoformat` calls of lines
141-174, 198-268 and 285-291 run unguarded), and `.ok bytes` is a normal
return.  `Spacer`/`PageBreak` construction and `datetime.now().strftime`
(the collection cover date, which formats the current clock rather than
stored data) do not raise and stay total (`nowStr`). -/

/-- A reportlab flowable appended to the `story`. -/
inductive Flowable where
  | para (text : String) (style : String)
  | spacer (w h : Nat)
  | pageBreak
deriving Repr, DecidableEq

/-- Decidable equality on `Except`, so that concrete assembler runs can be
checked by `decide`. -/
instance {ε α : Type} [DecidableEq ε] [DecidableEq α] :
    DecidableEq (Except ε α)
  | .ok a, .ok b =>
    if h : a = b then .isTrue (by rw [h])
    else .isFalse (by intro hc; cases hc; exact h rfl)
  | .error e, .error f =>
    if h : e = f then .isTrue (by rw [h])
    else .isFalse (by intro hc; cases hc; exact h rfl)
  | .ok _, .error _ => .isFalse (by intro hc; cases hc)
  | .error _, .ok _ => .isFalse (by intro hc; cases hc)

/-- The fallible external calls of the assembler (reportlab paragraph
construction and timestamp parsing/formatting). -/
structure PdfEnv where
  paraError : String → String → Option String
  fmtLong : String → Except String String
  fmtShort : String → Except String String

/-- reportlab `Paragraph(text, style)`: the flowable, unless the eager
markup parse raises. -/
def mkParagraph (env : PdfEnv) (text style : String) :
    Except String Flowable :=
  match env.paraError text style with
  | some e => .error e
  | none => .ok (.para text style)

/-- The story of `PDFGenerator.generate_error_pdf`, when its two
paragraphs construct successfully: the fixed error title and the error
message as body text. -/
def errorStory (error_message : String) : List Flowable :=
  [.para "PDF Generation Error" "CustomTitle",
   .spacer 1 12,
   .para error_message "CustomBody"]

/-- `PDFGenerator.generate_error_pdf`: construct the title and message
paragraphs (unguarded — a raise there propagates), then build; if the
build fails, return the empty byte string. -/
def generate_error_pdf (env : PdfEnv)
    (build : List Flowable → Option (List Nat)) (error_message : String) :
    Except String (List Nat) := do
  let t ← mkParagraph env "PDF Generation Error" "CustomTitle"
  let p ← mkParagraph env error_message "CustomBody"
  match build [t, .spacer 1 12, p] with
  | some b => pure b
  | none => pure []

/-- Python `str.split(sep)` for a non-empty multi-character separator:
split at non-overlapping occurrences, left to right (fuel = input
length). -/
def splitOnListF (sep : List Char) : Nat → List Char → List (List Char)
  | 0, s => [s]
  | _ + 1, [] => [[]]
  | fuel + 1, a :: rest =>
    if sep.isPrefixOf (a :: rest) then
      [] :: splitOnListF sep fuel ((a :: rest).drop sep.length)
    else
      match splitOnListF sep fuel rest with
      | [] => [[a]]
      | g :: gs => (a :: g) :: gs

/-- Wrapper for `splitOnListF` with enough fuel. -/
def pySplitOn (sep : List Char) (l : List Char) : List (List Char) :=
  splitOnListF sep l.length l

/-- The paragraph texts of a note's content: `clean_content`, split on
`<br/><br/>`, the stripped nonempty chunks in order (what ends up as
Paragraph blocks for the content). -/
def contentParagraphs (content : String) : List String :=
  ((pySplitOn "<br/><br/>".toList (clean_content content).toList).filter
      (fun p => !(stripChars p).isEmpty)).map
    (fun p => String.mk (stripChars p))

/-- The content part of a note's story: one `CustomBody` paragraph (plus
spacer) per nonempty stripped chunk, each `Paragraph` constructed through
the fallible backend. -/
def contentStory (env : PdfEnv) (content : String) :
    Except String (List Flowable) := do
  let ps ← (contentParagraphs content).mapM
    (fun p => mkParagraph env p "CustomBody")
  pure (ps.flatMap (fun p => [p, .spacer 1 6]))

/-- The story construction of `PDFGenerator.generate_single_note_pdf`
(lines 141-174, outside the `try`): title, the two timestamp formats, the
metadata line (updated date appended only when it differs), separator
rule, then the content paragraphs — any raise short-circuits. -/
def singleNoteStory (env : PdfEnv) (note : Note) :
    Except String (List Flowable) := do
  let title ← mkParagraph env note.title "CustomTitle"
  let created ← env.fmtLong note.created_at
  let updated ← env.fmtLong note.updated_at
  let metaP ← mkParagraph env
    ("Created: " ++ created ++
      (if note.created_at ≠ note.updated_at then
        " | Last Updated: " ++ updated else ""))
    "MetaData"
  let sep ← mkParagraph env (String.mk (List.replicate 50 '─')) "Separator"
  let contentPs ← contentStory env note.content
  pure ([title, .spacer 1 12, metaP, .spacer 1 12, sep] ++ contentPs)

/-- `PDFGenerator.generate_single_note_pdf`: construct the story
(unguarded — a raise propagates), then build inside `try`; on build
failure fall back to the error document. -/
def generate_single_note_pdf (env : PdfEnv)
    (build : List Flowable → Option (List Nat)) (note : Note) :
    Except String (List Nat) :=
  match singleNoteStory env note with
  | .error e => .error e
  | .ok story =>
    match build story with
    | some b => .ok b
    | none => generate_error_pdf env build "Error generating PDF"

/-- One table-of-contents entry of the collection export: short-format
created date, then the numbered-title paragraph. -/
def tocEntry (env : PdfEnv) (inote : Nat × Note) :
    Except String Flowable := do
  let created ← env.fmtShort inote.2.created_at
  mkParagraph env
    (toString inote.1 ++ ". " ++ inote.2.title ++ " (" ++ created ++ ")")
    "CustomBody"

/-- The per-note section of the collection export: numbered title,
metadata, content, and a separator after every note but the last. -/
def collectionNoteSection (env : PdfEnv) (total : Nat)
    (inote : Nat × Note) : Except String (List Flowable) := do
  let titleP ← mkParagraph env (toString inote.1 ++ ". " ++ inote.2.title)
    "CustomTitle"
  let created ← env.fmtLong inote.2.created_at
  let updated ← env.fmtLong inote.2.updated_at
  let metaP ← mkParagraph env
    ("Created: " ++ created ++
      (if inote.2.created_at ≠ inote.2.updated_at then
        " | Last Updated: " ++ updated else ""))
    "MetaData"
  let contentPs ← contentStory env inote.2.content
  let trailer ←
    if inote.1 < total then do
      let sep ← mkParagraph env (String.mk (List.replicate 80 '─'))
        "Separator"
      pure [Flowable.spacer 1 24, sep, Flowable.spacer 1 24]
    else pure []
  pure ([titleP, .spacer 1 12, metaP, .spacer 1 8] ++ contentPs ++ trailer)

/-- The story construction of `PDFGenerator.generate_all_notes_pdf`
(lines 198-268, outside the `try`): cover block, generation date, total
count, table of contents, page break, then every note's section — any
raise short-circuits. -/
def allNotesStory (env : PdfEnv) (nowStr : String) (notes : List Note) :
    Except String (List Flowable) := do
  let cover ← mkParagraph env "My Notes Collection" "CustomTitle"
  let dateP ← mkParagraph env ("Generated on: " ++ nowStr) "MetaData"
  let summary ← mkParagraph env ("Total Notes: " ++ toString notes.length)
    "CustomBody"
  let tocTitle ← mkParagraph env "Table of Contents" "CustomHeading"
  let toc ← (List.enumFrom 1 notes).mapM (tocEntry env)
  let sections ← (List.enumFrom 1 notes).mapM
    (collectionNoteSection env notes.length)
  pure ([cover, .spacer 1 12, dateP, .spacer 1 12, summary, .spacer 1 24,
    tocTitle, .spacer 1 12] ++ toc ++ [.pageBreak] ++ sections.flatten)

/-- `PDFGenerator.generate_all_notes_pdf`: construct the collection story
(unguarded — a raise propagates), then build inside `try`; on build
failure fall back to the error document. -/
def generate_all_notes_pdf (env : PdfEnv)
    (build : List Flowable → Option (List Nat)) (nowStr : String)
    (notes : List Note) : Except String (List Nat) :=
  match allNotesStory env nowStr notes with
  | .error e => .error e
  | .ok story =>
    match build story with
    | some b => .ok b
    | none => generate_error_pdf env build "Error generating notes collection PDF"

/-! ## Store theorems -/

/-- Helper: a first-match update on `pre ++ n :: post`, where nothing in
`pre` matches, rewrites exactly `n`. -/
theorem updateFirst_eq (note_id title content now : String)
    (pre post : List Note) (n : Note) (hn : n.id = note_id)
    (hpre : ∀ m ∈ pre, m.id ≠ note_id) :
    updateFirst note_id title content now (pre ++ n :: post) =
      some (pre ++
        { n with title := title, content := content, updated_at := now } ::
        post) := by
  induction pre with
  | nil => simp [updateFirst, hn]
  | cons m ms ih =>
    have hm : m.id ≠ note_id := hpre m (by simp)
    have hrec := ih (fun x hx => hpre x (List.mem_cons_of_mem m hx))
    simp [updateFirst, hm, hrec]

/-- Helper: removing an element that fails the filter predicate strictly
shrinks the filtered length. -/
theorem length_filter_lt_of_mem {α : Type} (p : α → Bool) (l : List α)
    (x : α) (hx : x ∈ l) (hpx : p x = false) :
    (l.filter p).length < l.length := by
  induction l with
  | nil => cases hx
  | cons a t ih =>
    rcases List.mem_cons.mp hx with rfl | hmem
    · simp only [List.filter_cons, hpx, List.length_cons]
      exact Nat.lt_succ_of_le (List.length_filter_le p t)
    · cases hpa : p a with
      | true => simpa [List.filter_cons, hpa] using Nat.succ_lt_succ (ih hmem)
      | false =>
        have := ih hmem
        simp [List.filter_cons, hpa]
        omega

/-- **C1**: `create_note` returns the freshly generated id exactly when the
write to backing storage succeeds, and `None` when it fails; on success
the persisted file is replaced wholesale by the reloaded collection plus
the one appended note, and on failure the file — hence every later call,
which reloads from it — is exactly as before, so the in-memory mutation is
discarded.  (The fresh id itself is `uuid.uuid4()`, modelled as the
explicit parameter `id`.) -/
theorem create_note_result_spec (title content id time : String)
    (d : Disk) :
    (d.writeOk = true →
      create_note title content id time d =
        (some id,
         { content := some (load_notes d ++
             [{ id := id, title := title, content := content, created_at := time, updated_at := time }])
           writeOk := true })) ∧
    (d.writeOk = false →
      create_note title content id time d = (none, d)) := by
  constructor <;> intro h <;> simp [create_note, save_notes, h]

/-- Witness for **C1** at a concrete store. -/
theorem create_note_result_spec_witness :
    (Disk.mk (some []) true).writeOk = true ∧
    create_note "t" "c" "id1" "2024-01-01T00:00:00"
        (Disk.mk (some []) true) =
      (some "id1",
       Disk.mk
         (some [{ id := "id1", title := "t", content := "c", created_at := "2024-01-01T00:00:00", updated_at := "2024-01-01T00:00:00" }])
         true) :=
  ⟨rfl,
   (create_note_result_spec "t" "c" "id1" "2024-01-01T00:00:00"
      (Disk.mk (some []) true)).1 rfl⟩

/-- **C2**: when the backing file is missing or non-parseable
(`content = none`, i.e. `load_notes` hits `FileNotFoundError` or
`JSONDecodeError` and returns `[]`), every read path behaves as if the
collection were empty — `get` is not-found, `list` and `search` are empty,
`count` is `0` — and, being total Lean functions, none of them raises past
the store boundary. -/
theorem load_failure_reads_empty (d : Disk) (h : d.content = none)
    (note_id query : String) :
    get_note note_id d = none ∧
    get_all_notes d = [] ∧
    search_notes query d = [] ∧
    get_notes_count d = 0 := by
  simp [get_note, get_all_notes, search_notes, get_notes_count,
    load_notes, h]

/-- Witness for **C2** at a concrete broken store. -/
theorem load_failure_reads_empty_witness :
    (Disk.mk none true).content = none ∧
    (get_note "some-id" (Disk.mk none true) = none ∧
     get_all_notes (Disk.mk none true) = [] ∧
     search_notes "query" (Disk.mk none true) = [] ∧
     get_notes_count (Disk.mk none true) = 0) :=
  ⟨rfl, load_failure_reads_empty (Disk.mk none true) rfl "some-id" "query"⟩

/-- **C5**: if `create(T, C)` succeeds (the id is fresh — as `uuid4` — and
the write succeeds), then `get` of the returned id yields a note with
title `T`, content `C`, and `created_at = updated_at` (both stamped with
the creation time). -/
theorem create_get_roundtrip (title content id time : String) (d : Disk)
    (hfresh : ∀ n ∈ load_notes d, n.id ≠ id) (hw : d.writeOk = true) :
    ∃ n : Note,
      (create_note title content id time d).1 = some id ∧
      get_note id (create_note title content id time d).2 = some n ∧
      n.title = title ∧ n.content = content ∧
      n.created_at = n.updated_at := by
  refine ⟨{ id := id, title := title, content := content, created_at := time, updated_at := time },
    ?_, ?_, rfl, rfl, rfl⟩
  · simp [create_note, save_notes, hw]
  · have h1 : (load_notes d).find? (fun n => n.id == id) = none := by
      simp only [List.find?_eq_none]
      intro x hx
      simpa using hfresh x hx
    have h2 : get_note id (create_note title content id time d).2 =
        ((load_notes d) ++
          [({ id := id, title := title, content := content, created_at := time, updated_at := time } : Note)]).find?
          (fun n => n.id == id) := by
      simp [create_note, save_notes, hw, get_note, load_notes]
    rw [h2, List.find?_append, h1]
    simp

/-- Witness for **C5** at a concrete store. -/
theorem create_get_roundtrip_witness :
    (∀ n ∈ load_notes (Disk.mk (some []) true), n.id ≠ "id1") ∧
    (∃ n : Note,
      (create_note "T" "C" "id1" "2024-05-05T10:00:00"
          (Disk.mk (some []) true)).1 = some "id1" ∧
      get_note "id1" (create_note "T" "C" "id1" "2024-05-05T10:00:00"
          (Disk.mk (some []) true)).2 = some n ∧
      n.title = "T" ∧ n.content = "C" ∧
      n.created_at = n.updated_at) :=
  ⟨by intro n hn; simp [load_notes] at hn,
   create_get_roundtrip "T" "C" "id1" "2024-05-05T10:00:00"
     (Disk.mk (some []) true)
     (by intro n hn; simp [load_notes] at hn) rfl⟩

/-- **C6**: a successful `update(id, T2, C2)` — the id occurs (first) at
some position and the save succeeds — rewrites exactly that note: its `id`
and `created_at` are untouched, its title and content become `T2`/`C2`,
its `updated_at` is set to the current time `now`, and every other note
(the surrounding `pre`/`post`) is persisted unchanged.  (`updated_at` is
thereby not earlier than before whenever the wall clock is monotone, since
it is overwritten with `now`.) -/
theorem update_note_spec (note_id title content now : String) (d : Disk)
    (pre post : List Note) (n : Note)
    (hload : load_notes d = pre ++ n :: post) (hn : n.id = note_id)
    (hpre : ∀ m ∈ pre, m.id ≠ note_id) (hw : d.writeOk = true) :
    ∃ n' : Note,
      update_note note_id title content now d =
        (true, { content := some (pre ++ n' :: post), writeOk := true }) ∧
      n'.id = n.id ∧ n'.created_at = n.created_at ∧
      n'.title = title ∧ n'.content = content ∧ n'.updated_at = now := by
  refine ⟨{ n with title := title, content := content, updated_at := now },
    ?_, rfl, rfl, rfl, rfl, rfl⟩
  simp [update_note, hload,
    updateFirst_eq note_id title content now pre post n hn hpre,
    save_notes, hw]

/-- Witness for **C6** at a concrete two-note store. -/
theorem update_note_spec_witness :
    (load_notes (Disk.mk
        (some [{ id := "a", title := "t0", content := "c0", created_at := "2024-01-01T00:00:00", updated_at := "2024-01-01T00:00:00" },
               { id := "b", title := "t1", content := "c1", created_at := "2024-01-02T00:00:00", updated_at := "2024-01-02T00:00:00" }]) true) =
      [{ id := "a", title := "t0", content := "c0", created_at := "2024-01-01T00:00:00", updated_at := "2024-01-01T00:00:00" }] ++
        { id := "b", title := "t1", content := "c1", created_at := "2024-01-02T00:00:00", updated_at := "2024-01-02T00:00:00" } :: []) ∧
    (∃ n' : Note,
      update_note "b" "T2" "C2" "2024-03-03T03:03:03"
          (Disk.mk
            (some [{ id := "a", title := "t0", content := "c0", created_at := "2024-01-01T00:00:00", updated_at := "2024-01-01T00:00:00" },
                   { id := "b", title := "t1", content := "c1", created_at := "2024-01-02T00:00:00", updated_at := "2024-01-02T00:00:00" }]) true) =
        (true,
         { content := some ([{ id := "a", title := "t0", content := "c0", created_at := "2024-01-01T00:00:00", updated_at := "2024-01-01T00:00:00" }] ++ n' :: [])
           writeOk := true }) ∧
      n'.id = "b" ∧ n'.created_at = "2024-01-02T00:00:00" ∧
      n'.title = "T2" ∧ n'.content = "C2" ∧
      n'.updated_at = "2024-03-03T03:03:03") :=
  ⟨rfl,
   update_note_spec "b" "T2" "C2" "2024-03-03T03:03:03" _
     [{ id := "a", title := "t0", content := "c0", created_at := "2024-01-01T00:00:00", updated_at := "2024-01-01T00:00:00" }]
     []
     { id := "b", title := "t1", content := "c1", created_at := "2024-01-02T00:00:00", updated_at := "2024-01-02T00:00:00" }
     rfl rfl (by intro m hm; simp at hm; subst hm; decide) rfl⟩

/-- A sample note used by witnesses (its content contains "say hello"). -/
def noteA : Note :=
  { id := "a"
    title := "Alpha"
    content := "say hello"
    created_at := "2024-01-01T00:00:00"
    updated_at := "2024-01-01T00:00:00" }

/-- A second sample note used by witnesses. -/
def noteB : Note :=
  { id := "b"
    title := "Beta"
    content := "other text"
    created_at := "2024-01-02T00:00:00"
    updated_at := "2024-01-02T00:00:00" }

/-- **C10**: `delete(id)` drops every note whose id matches (a full
filter, not only the first hit); it succeeds exactly when at least one
note matched and the save succeeded, reports failure leaving the store
untouched when the save fails or when no note matched, and when the id
occurs exactly once the persisted count drops by one and a subsequent
`get(id)` is not-found. -/
theorem delete_note_spec (note_id : String) (d : Disk) :
    ((∃ n ∈ load_notes d, n.id = note_id) → d.writeOk = true →
      delete_note note_id d =
        (true,
         { content := some ((load_notes d).filter (fun n => n.id != note_id))
           writeOk := true })) ∧
    ((∃ n ∈ load_notes d, n.id = note_id) → d.writeOk = false →
      delete_note note_id d = (false, d)) ∧
    ((∀ n ∈ load_notes d, n.id ≠ note_id) →
      delete_note note_id d = (false, d)) ∧
    (∀ pre post n, load_notes d = pre ++ n :: post → n.id = note_id →
      (∀ m ∈ pre, m.id ≠ note_id) → (∀ m ∈ post, m.id ≠ note_id) →
      d.writeOk = true →
      get_notes_count (delete_note note_id d).2 + 1 = get_notes_count d ∧
      get_note note_id (delete_note note_id d).2 = none) := by
  refine ⟨?_, ?_, ?_, ?_⟩
  · rintro ⟨n, hn, hid⟩ hw
    have hlt : ((load_notes d).filter (fun n => n.id != note_id)).length <
        (load_notes d).length :=
      length_filter_lt_of_mem _ _ n hn (by simp [hid])
    simp [delete_note, hlt, save_notes, hw]
  · rintro ⟨n, hn, hid⟩ hw
    have hlt : ((load_notes d).filter (fun n => n.id != note_id)).length <
        (load_notes d).length :=
      length_filter_lt_of_mem _ _ n hn (by simp [hid])
    simp [delete_note, hlt, save_notes, hw]
  · intro hall
    have heq : (load_notes d).filter (fun n => n.id != note_id) =
        load_notes d :=
      List.filter_eq_self.mpr (fun a ha => by simpa using hall a ha)
    simp [delete_note, heq]
  · intro pre post n hload hid hpre hpost hw
    have hfilter : (load_notes d).filter (fun n => n.id != note_id) =
        pre ++ post := by
      rw [hload, List.filter_append, List.filter_cons]
      rw [List.filter_eq_self.mpr (fun a ha => by simpa using hpre a ha),
        List.filter_eq_self.mpr (fun a ha => by simpa using hpost a ha)]
      simp [hid]
    have hdel := (by
      rintro ⟨n', hn', hid'⟩ hw'
      have hlt : ((load_notes d).filter (fun n => n.id != note_id)).length <
          (load_notes d).length :=
        length_filter_lt_of_mem _ _ n' hn' (by simp [hid'])
      simp [delete_note, hlt, save_notes, hw'] :
      (∃ n ∈ load_notes d, n.id = note_id) → d.writeOk = true →
        delete_note note_id d =
          (true,
           { content := some ((load_notes d).filter (fun n => n.id != note_id))
             writeOk := true }))
      ⟨n, by rw [hload]; exact List.mem_append_right _ (List.mem_cons_self n post), hid⟩ hw
    rw [hdel, hfilter]
    constructor
    · unfold get_notes_count
      rw [hload]
      simp [load_notes]
      omega
    · simp only [get_note, load_notes, Option.getD_some]
      rw [List.find?_eq_none]
      intro x hx
      rcases List.mem_append.mp hx with hx | hx
      · simpa using hpre x hx
      · simpa using hpost x hx

/-- Witness for **C10** at a concrete two-note store. -/
theorem delete_note_spec_witness :
    (∃ n ∈ load_notes (Disk.mk (some [noteA, noteB]) true), n.id = "a") ∧
    delete_note "a" (Disk.mk (some [noteA, noteB]) true) =
      (true, Disk.mk (some [noteB]) true) := by
  have hmem : ∃ n ∈ load_notes (Disk.mk (some [noteA, noteB]) true),
      n.id = "a" := ⟨noteA, by simp [load_notes], rfl⟩
  refine ⟨hmem, ?_⟩
  have h := (delete_note_spec "a" (Disk.mk (some [noteA, noteB]) true)).1
    hmem rfl
  rw [h]
  simp [load_notes, noteA, noteB]

/-- **C7**: when the stored notes have pairwise-distinct creation
timestamps, `list()` returns a permutation of the whole stored collection
that is strictly descending in `created_at` (newest first). -/
theorem get_all_notes_sorted (d : Disk)
    (hd : ((load_notes d).map Note.created_at).Nodup) :
    List.Perm (get_all_notes d) (load_notes d) ∧
    (get_all_notes d).Pairwise
      (fun a b => b.created_at < a.created_at) := by
  have hperm : List.Perm (get_all_notes d) (load_notes d) :=
    List.mergeSort_perm (load_notes d) _
  refine ⟨hperm, ?_⟩
  have hsorted : (get_all_notes d).Pairwise
      (fun a b : Note => decide (b.created_at ≤ a.created_at) = true) := by
    unfold get_all_notes
    exact List.sorted_mergeSort
      (fun a b c hab hbc => by
        simp only [decide_eq_true_eq] at hab hbc ⊢
        exact le_trans hbc hab)
      (fun a b => by
        simp only [Bool.or_eq_true, decide_eq_true_eq]
        exact le_total b.created_at a.created_at)
      (load_notes d)
  have hnodup : ((get_all_notes d).map Note.created_at).Nodup :=
    ((hperm.map Note.created_at).symm).nodup hd
  have hne : (get_all_notes d).Pairwise
      (fun a b : Note => a.created_at ≠ b.created_at) :=
    List.pairwise_map.mp hnodup
  exact (hsorted.and hne).imp
    (fun h => lt_of_le_of_ne (by simpa using h.1) (Ne.symm h.2))

/-- Witness for **C7** at a concrete two-note store with distinct
creation timestamps. -/
theorem get_all_notes_sorted_witness :
    ((load_notes (Disk.mk (some [noteA, noteB]) true)).map
        Note.created_at).Nodup ∧
    (List.Perm (get_all_notes (Disk.mk (some [noteA, noteB]) true))
        (load_notes (Disk.mk (some [noteA, noteB]) true)) ∧
     (get_all_notes (Disk.mk (some [noteA, noteB]) true)).Pairwise
        (fun a b => b.created_at < a.created_at)) :=
  ⟨by simp [load_notes, noteA, noteB],
   get_all_notes_sorted (Disk.mk (some [noteA, noteB]) true)
     (by simp [load_notes, noteA, noteB])⟩

/-- Helper: the append-accumulating loop of `search_notes` is a filter. -/
theorem foldl_filter_append {α : Type} (p : α → Bool) :
    ∀ (l acc : List α),
      l.foldl (fun acc n => if p n then acc ++ [n] else acc) acc =
        acc ++ l.filter p := by
  intro l
  induction l with
  | nil => intro acc; simp
  | cons a t ih =>
    intro acc
    cases hpa : p a <;> simp [List.foldl_cons, hpa, ih, List.filter_cons]

/-- **C8**: `search(query)` returns exactly those notes of the full
listing (`get_all_notes`, in listing order) whose lowercased title or
lowercased content contains the lowercased query as a substring; in
particular `search("HELLO")` matches a note whose content is
`"say hello"`. -/
theorem search_notes_spec :
    (∀ (query : String) (d : Disk),
      search_notes query d =
        (get_all_notes d).filter (noteMatches (strLower query))) ∧
    (∀ (query : String) (d : Disk) (n : Note),
      n ∈ search_notes query d ↔
        n ∈ get_all_notes d ∧
          ((strLower query).toList <:+: (strLower n.title).toList ∨
           (strLower query).toList <:+: (strLower n.content).toList)) ∧
    search_notes "HELLO" (Disk.mk (some [noteA]) true) = [noteA] := by
  have hfilter : ∀ (query : String) (d : Disk),
      search_notes query d =
        (get_all_notes d).filter (noteMatches (strLower query)) := by
    intro query d
    simpa [search_notes] using
      foldl_filter_append (noteMatches (strLower query)) (get_all_notes d) []
  refine ⟨hfilter, ?_, ?_⟩
  · intro query d n
    rw [hfilter]
    simp [List.mem_filter, noteMatches, pyContains]
  · have h1 : get_all_notes (Disk.mk (some [noteA]) true) = [noteA] := by
      simp [get_all_notes, load_notes]
    rw [hfilter, h1]
    decide

/-- Helper: when the two fallback paragraphs construct successfully, the
error document is the build of `errorStory` (or empty bytes if even that
build fails). -/
theorem generate_error_pdf_eq (env : PdfEnv)
    (build : List Flowable → Option (List Nat)) (msg : String)
    (h1 : env.paraError "PDF Generation Error" "CustomTitle" = none)
    (h2 : env.paraError msg "CustomBody" = none) :
    generate_error_pdf env build msg =
      match build (errorStory msg) with
      | some b => .ok b
      | none => .ok [] := by
  unfold generate_error_pdf mkParagraph
  rw [h1, h2]
  rfl

/-- **C3** (amended): only `doc.build` is guarded in the exports.  When
the assembled story constructs successfully, single-note and collection
export never raise: they return the built document, or on build failure
the fallback error document — whose story is the fixed title
"PDF Generation Error" plus the error message as body text — when the
fallback's paragraphs and build succeed, and the empty byte string when
even the fallback build fails.  When story construction itself fails (a
reportlab paragraph markup parse or a timestamp parse raising on the
note's data), the exception propagates uncaught past the assembler. -/
theorem export_fallback_spec (env : PdfEnv)
    (build : List Flowable → Option (List Nat)) (nowStr : String)
    (note : Note) (notes : List Note) :
    (∀ story b, singleNoteStory env note = .ok story →
      build story = some b →
      generate_single_note_pdf env build note = .ok b) ∧
    (∀ story, singleNoteStory env note = .ok story → build story = none →
      env.paraError "PDF Generation Error" "CustomTitle" = none →
      env.paraError "Error generating PDF" "CustomBody" = none →
      (∀ e, build (errorStory "Error generating PDF") = some e →
        generate_single_note_pdf env build note = .ok e) ∧
      (build (errorStory "Error generating PDF") = none →
        generate_single_note_pdf env build note = .ok [])) ∧
    (∀ e, singleNoteStory env note = .error e →
      generate_single_note_pdf env build note = .error e) ∧
    (∀ story b, allNotesStory env nowStr notes = .ok story →
      build story = some b →
      generate_all_notes_pdf env build nowStr notes = .ok b) ∧
    (∀ story, allNotesStory env nowStr notes = .ok story →
      build story = none →
      env.paraError "PDF Generation Error" "CustomTitle" = none →
      env.paraError "Error generating notes collection PDF" "CustomBody" = none →
      (∀ e, build (errorStory "Error generating notes collection PDF") = some e →
        generate_all_notes_pdf env build nowStr notes = .ok e) ∧
      (build (errorStory "Error generating notes collection PDF") = none →
        generate_all_notes_pdf env build nowStr notes = .ok [])) ∧
    (∀ e, allNotesStory env nowStr notes = .error e →
      generate_all_notes_pdf env build nowStr notes = .error e) ∧
    (∀ msg, Flowable.para "PDF Generation Error" "CustomTitle" ∈ errorStory msg ∧
      Flowable.para msg "CustomBody" ∈ errorStory msg) := by
  refine ⟨?_, ?_, ?_, ?_, ?_, ?_, ?_⟩
  · intro story b hs hb
    simp [generate_single_note_pdf, hs, hb]
  · intro story hs hb h1 h2
    constructor
    · intro e he
      simp [generate_single_note_pdf, hs, hb,
        generate_error_pdf_eq env build _ h1 h2, he]
    · intro he
      simp [generate_single_note_pdf, hs, hb,
        generate_error_pdf_eq env build _ h1 h2, he]
  · intro e hs
    simp [generate_single_note_pdf, hs]
  · intro story b hs hb
    simp [generate_all_notes_pdf, hs, hb]
  · intro story hs hb h1 h2
    constructor
    · intro e he
      simp [generate_all_notes_pdf, hs, hb,
        generate_error_pdf_eq env build _ h1 h2, he]
    · intro he
      simp [generate_all_notes_pdf, hs, hb,
        generate_error_pdf_eq env build _ h1 h2, he]
  · intro e hs
    simp [generate_all_notes_pdf, hs]
  · intro msg
    exact ⟨by simp [errorStory], by simp [errorStory]⟩

/-- An environment in which every external call succeeds (paragraph
markup always parses, timestamps always format). -/
def okEnv : PdfEnv where
  paraError := fun _ _ => none
  fmtLong := fun s => .ok s
  fmtShort := fun s => .ok s

/-- An environment whose paragraph construction raises whenever the text
contains the invalid markup `</b>`, as reportlab's eager markup parse
does; timestamps format fine. -/
def badMarkupEnv : PdfEnv where
  paraError := fun text _ =>
    if pyContains text "</b>" then some "ValueError" else none
  fmtLong := fun s => .ok s
  fmtShort := fun s => .ok s

/-- A backend that fails on every story except the single-note fallback
error story, to exercise the fallback path. -/
def fallbackBuild : List Flowable → Option (List Nat) :=
  fun s => if s = errorStory "Error generating PDF" then some [66] else none

/-- The story `singleNoteStory` assembles for `noteA` when every external
call succeeds. -/
def noteAStory : List Flowable :=
  [.para "Alpha" "CustomTitle",
   .spacer 1 12,
   .para "Created: 2024-01-01T00:00:00" "MetaData",
   .spacer 1 12,
   .para (String.mk (List.replicate 50 '─')) "Separator",
   .para "say hello" "CustomBody",
   .spacer 1 6]

/-- Witness for **C3**: a concrete backend that fails on the note story
but builds the fallback error document. -/
theorem export_fallback_spec_witness :
    singleNoteStory okEnv noteA = .ok noteAStory ∧
    fallbackBuild noteAStory = none ∧
    okEnv.paraError "PDF Generation Error" "CustomTitle" = none ∧
    okEnv.paraError "Error generating PDF" "CustomBody" = none ∧
    fallbackBuild (errorStory "Error generating PDF") = some [66] ∧
    generate_single_note_pdf okEnv fallbackBuild noteA = .ok [66] := by
  have hs : singleNoteStory okEnv noteA = .ok noteAStory := by decide
  have hb : fallbackBuild noteAStory = none := by decide
  have he : fallbackBuild (errorStory "Error generating PDF") = some [66] := by
    decide
  exact ⟨hs, hb, rfl, rfl, he,
    ((export_fallback_spec okEnv fallbackBuild "now" noteA []).2.1
      noteAStory hs hb rfl rfl).1 [66] he⟩

/-- **C3** (counterexample to the claim as stated): a note whose title
contains the invalid markup `</b>` makes both exports raise uncaught past
the assembler (story construction is outside the `try`), and when the
backend throws on every build — the fallback's included — the export
returns the empty byte string, not a fallback document containing the
fixed error title and message. -/
theorem export_failure_counterexample :
    generate_single_note_pdf badMarkupEnv (fun _ => some [1])
      { id := "x"
        title := "</b>"
        content := "c"
        created_at := "2024-01-01T00:00:00"
        updated_at := "2024-01-01T00:00:00" } = .error "ValueError" ∧
    generate_all_notes_pdf badMarkupEnv (fun _ => some [1]) "now"
      [{ id := "x"
         title := "</b>"
         content := "c"
         created_at := "2024-01-01T00:00:00"
         updated_at := "2024-01-01T00:00:00" }] = .error "ValueError" ∧
    generate_single_note_pdf okEnv (fun _ => none) noteA = .ok [] ∧
    generate_error_pdf okEnv (fun _ => none) "Error generating PDF" =
      .ok [] := by
  refine ⟨by decide, by decide, by decide, by decide⟩

/-- **C4** (counterexample to the claim as stated): the malformed input
`"**unterminated bold"` does not render to a Paragraph containing the
literal text unchanged. -/
theorem unterminated_bold_not_literal :
    contentParagraphs "**unterminated bold" ≠ ["**unterminated bold"] := by
  decide

/-- **C4** (amended): the renderer is total and renders malformed input
without failing, but the unmatched `**` of `"**unterminated bold"` is
consumed by the italic rule as an empty italic span, producing a single
Paragraph block with text `"<i></i>unterminated bold"` rather than the
literal input; an unterminated code fence such as `"```foo"` is passed
through as literal text unchanged. -/
theorem malformed_input_renders :
    contentParagraphs "**unterminated bold" = ["<i></i>unterminated bold"] ∧
    contentParagraphs "```foo" = ["```foo"] ∧
    clean_content "```foo" = "```foo" :=
  ⟨by decide, by decide, by decide⟩

/-- **C9** (the code evaluated at the failing input): the fenced code
block `"```abcd```"` is consumed by the inline-code rule — which runs
before the fenced-block rule — so the renderer emits inline-code markup
between stray backticks instead of the CodeBlock (Courier size-9 span)
with untruncated content that the claim describes. -/
theorem fenced_block_consumed_by_inline_code :
    clean_content "```abcd```" =
      "``<font face=\"Courier\">abcd</font>``" ∧
    clean_content "```abcd```" ≠
      "<font face=\"Courier\" size=\"9\">abcd</font>" :=
  ⟨by decide, by decide⟩

end NoteApp
